import Mathlib

/-!
# Program_base: bootstrap, frame driver and teardown of a Vulkan program

A shallow embedding of `base/include/Program_base.hpp`.

* The free function `debug_report_callback` is a pure function of its arguments
  that yields the text it writes (with the stream it writes to) and the
  `VkBool32` it returns.
* The member functions of `Program_base` are state-passing functions over the
  record `Program_base` of the class's data members.  Everything the class
  asks of its collaborators (the Vulkan loader and instance, `Physical_device`,
  `Device`, the shell's window, the Win32 message queue, the timer) is answered
  by an explicit `Host` value, and every call made to a collaborator is
  appended to a trace of `Event`s, in program order.
* A C++ exception or a failed assertion is the `raised` field of an `Outcome`;
  the statements after the raising one are not executed.

Collaborator calls are assumed to return: a failure inside `vk::createInstance`,
the `Physical_device` or `Device` constructors or the window code ends the
process inside that collaborator and is not part of this development.
-/

set_option linter.unusedVariables false

namespace base

/-! ## Constants of the Vulkan and Win32 headers -/

/-- The bit `VK_DEBUG_REPORT_INFORMATION_BIT_EXT` of the Vulkan headers (bit 0). -/
def VK_DEBUG_REPORT_INFORMATION_BIT_EXT : Nat := 0x00000001
/-- The bit `VK_DEBUG_REPORT_WARNING_BIT_EXT` of the Vulkan headers (bit 1). -/
def VK_DEBUG_REPORT_WARNING_BIT_EXT : Nat := 0x00000002
/-- The bit `VK_DEBUG_REPORT_PERFORMANCE_WARNING_BIT_EXT` of the Vulkan headers (bit 2). -/
def VK_DEBUG_REPORT_PERFORMANCE_WARNING_BIT_EXT : Nat := 0x00000004
/-- The bit `VK_DEBUG_REPORT_ERROR_BIT_EXT` of the Vulkan headers (bit 3). -/
def VK_DEBUG_REPORT_ERROR_BIT_EXT : Nat := 0x00000008
/-- The bit `VK_DEBUG_REPORT_DEBUG_BIT_EXT` of the Vulkan headers (bit 4). -/
def VK_DEBUG_REPORT_DEBUG_BIT_EXT : Nat := 0x00000010

/-- The value `VK_TRUE` of a `VkBool32`. -/
def VK_TRUE : Nat := 1
/-- The value `VK_FALSE` of a `VkBool32`. -/
def VK_FALSE : Nat := 0

/-- The preprocessor constant `DEBUG_REPORT_VERBOSE` of the source file. -/
def DEBUG_REPORT_VERBOSE : Bool := false
/-- The preprocessor constant `MSG_PREFIX` of the source file. -/
def MSG_PREFIX : String := "-- PROGRAM_BASE: "

/-! ## The diagnostic callback -/

/-- The two standard streams the callback writes to. -/
inductive OStream where
  | cout
  | cerr
  deriving DecidableEq, Repr

/-- What one call of `debug_report_callback` does: the text it writes, with the
stream it is written to (`none`: nothing is written), and the `VkBool32` it
returns. -/
structure CallbackResult where
  output : Option (OStream × String)
  ret : Nat
  deriving DecidableEq, Repr

/-- The function `debug_report_callback`.  `msg_flags` is the 32-bit flag word;
the arguments `obj_type`, `object`, `location` and `pUserData` are not read. -/
def debug_report_callback (msg_flags : Nat) (obj_type : Nat) (object : Nat)
    (location : Nat) (msg_code : Int) ( layer_prefix : String) (msg : String)
    (pUserData : Nat) : CallbackResult :=
  let classified : Option (String × Nat) :=
    if msg_flags &&& VK_DEBUG_REPORT_ERROR_BIT_EXT ≠ 0 then
      some ("ERROR", 0)
    else if msg_flags &&& VK_DEBUG_REPORT_WARNING_BIT_EXT ≠ 0 then
      some ("WARNING", 1)
    else if msg_flags &&& VK_DEBUG_REPORT_INFORMATION_BIT_EXT ≠ 0 then
      some ("INFORMATION", 2)
    else if msg_flags &&& VK_DEBUG_REPORT_PERFORMANCE_WARNING_BIT_EXT ≠ 0 then
      some ("PERFORMANCE", 3)
    else if msg_flags &&& VK_DEBUG_REPORT_DEBUG_BIT_EXT ≠ 0 then
      some ("DEBUG", 4)
    else
      none
  match classified with
  | none => { output := none, ret := VK_FALSE }
  | some ( msg_prefix, priority) =>
    let st : OStream := if priority = 0 then OStream.cerr else OStream.cout
    { output := some (st, ">> " ++ msg_prefix ++ " | layer " ++ layer_prefix ++
        " | code " ++ toString msg_code ++ ":\n" ++ msg ++ "\n"),
      ret := if priority = 0 then VK_TRUE else VK_FALSE }

/-! ## Data of the Vulkan and Win32 interfaces -/

/-- The enumeration `vk::Format`, by its numeric value. -/
abbrev Format := Nat
/-- The value `vk::Format::eUndefined`. -/
def Format.eUndefined : Format := 0
/-- The value `vk::Format::eR8G8B8A8Unorm`, the default argument of `init_base`. -/
def Format.eR8G8B8A8Unorm : Format := 37

/-- The enumeration `vk::ColorSpaceKHR`, by its numeric value. -/
abbrev ColorSpaceKHR := Nat

/-- The structure `vk::SurfaceFormatKHR`. -/
structure SurfaceFormatKHR where
  format : Format
  colorSpace : ColorSpaceKHR
  deriving DecidableEq, Repr

/-- The structure `VkLayerProperties`; `layerName` is the C string held in its
character array. -/
structure VkLayerProperties where
  layerName : String
  specVersion : Nat
  implementationVersion : Nat
  description : String
  deriving DecidableEq, Repr

/-- The type `VkResult`, by its numeric value. -/
abbrev VkResult := Int
/-- The value `VK_SUCCESS`. -/
def VK_SUCCESS : VkResult := 0
/-- The value `VK_ERROR_EXTENSION_NOT_PRESENT`. -/
def VK_ERROR_EXTENSION_NOT_PRESENT : VkResult := -7

/-- The string `VK_KHR_SURFACE_EXTENSION_NAME`. -/
def VK_KHR_SURFACE_EXTENSION_NAME : String := "VK_KHR_surface"
/-- The string `VK_KHR_WIN32_SURFACE_EXTENSION_NAME`. -/
def VK_KHR_WIN32_SURFACE_EXTENSION_NAME : String := "VK_KHR_win32_surface"
/-- The string `VK_KHR_SWAPCHAIN_EXTENSION_NAME`. -/
def VK_KHR_SWAPCHAIN_EXTENSION_NAME : String := "VK_KHR_swapchain"
/-- The string `VK_EXT_DEBUG_REPORT_EXTENSION_NAME`. -/
def VK_EXT_DEBUG_REPORT_EXTENSION_NAME : String := "VK_EXT_debug_report"

/-- The Win32 structure `MSG`. -/
structure MSG where
  message : Nat
  wParam : Nat
  lParam : Nat
  deriving DecidableEq, Repr

/-- The Win32 message number `WM_QUIT`. -/
def WM_QUIT : Nat := 0x0012

/-! ## Collaborators, events and outcomes -/

/-- The answers of the collaborators of `Program_base`. -/
structure Host where
  /-- The layers reported by `vkEnumerateInstanceLayerProperties`. -/
  available_layers : List VkLayerProperties
  /-- The entry-point names for which `vkGetInstanceProcAddr` returns a
  non-null pointer. -/
  instance_procs : List String
  /-- The result of the backend's `vkCreateDebugReportCallbackEXT`, when it is
  called. -/
  create_callback_result : VkResult
  /-- The `VkBool32` written by `getSurfaceSupportKHR`. -/
  surface_supported : Nat
  /-- The vector returned by `getSurfaceFormatsKHR`. -/
  surface_formats : List SurfaceFormatKHR
  /-- The string returned by `p_info_->prog_name()`. -/
  prog_name : String

/-- The calls made to collaborators, and the lines written to `std::cout`. -/
inductive Event where
  | cout (text : String)
  | vkEnumerateInstanceLayerProperties
  | createInstance (app_name : String) (layers : List String) (extensions : List String)
  | vkGetInstanceProcAddr (name : String)
  | vkCreateDebugReportCallbackEXT (flags : Nat)
  | vkDestroyDebugReportCallbackEXT
  | new_Physical_device (extensions : List String)
  | new_Device
  | init_window
  | createWin32SurfaceKHR
  | getSurfaceSupportKHR
  | getSurfaceFormatsKHR
  | waitIdle
  | delete_Device
  | delete_Physical_device
  | destroySurfaceKHR
  | destroy_window
  | instance_destroy
  deriving DecidableEq, Repr

/-- The ways a member function ends without returning. -/
inductive Err where
  /-- A thrown `std::runtime_error`, with its message. -/
  | runtime_error (what : String)
  /-- A failed `assert` or `assert_success`. -/
  | assertion_failed (what : String)
  /-- A member access through a null pointer. -/
  | null_dereference (what : String)
  deriving DecidableEq, Repr

/-- The data members of the class `Program_base`.  A handle or pointer member is
`true` when it holds a live object and `false` when it is null. -/
structure Program_base where
  enable_validation_ : Bool
  req_inst_layers_ : List String
  req_inst_extensions_ : List String
  req_device_extensions_ : List String
  instance_ : Bool
  debug_report_ : Bool
  p_phy_dev_ : Bool
  p_dev_ : Bool
  surface_ : Bool
  surface_format_ : SurfaceFormatKHR
  deriving DecidableEq, Repr

/-- The result of running a member function: the members afterwards, the calls
made in order, and the exception or assertion failure that ended it, if any. -/
structure Outcome where
  state : Program_base
  trace : List Event
  raised : Option Err
  deriving DecidableEq, Repr

/-- The constructor `Program_base::Program_base`: stores the flag, leaves the
request lists empty and the handles null, and writes one line. -/
def Program_base.construct (enable_validation : Bool) : Outcome :=
  { state :=
      { enable_validation_ := enable_validation
        req_inst_layers_ := []
        req_inst_extensions_ := []
        req_device_extensions_ := []
        instance_ := false
        debug_report_ := false
        p_phy_dev_ := false
        p_dev_ := false
        surface_ := false
        surface_format_ := { format := Format.eUndefined, colorSpace := 0 } }
    trace := [Event.cout (MSG_PREFIX ++ "enable validation: " ++
      (if enable_validation then "true" else "false"))]
    raised := none }

/-! ## Layer validation -/

/-- The inner loop of `check_instance_layer_support_`: whether `strcmp` finds
`layer_name` equal to the name of one of the layers. -/
def check_instance_layer_support_.found (layer_name : String) :
    List VkLayerProperties → Bool
  | [] => false
  | layer_props :: rest =>
    if layer_name = layer_props.layerName then true
    else check_instance_layer_support_.found layer_name rest

/-- The outer loop of `check_instance_layer_support_` over the requested
layers: the returned flag and the lines written. -/
def check_instance_layer_support_.loop (available_layers : List VkLayerProperties) :
    List String → Bool × List Event
  | [] => (true, [])
  | layer_name :: rest =>
    if check_instance_layer_support_.found layer_name available_layers then
      check_instance_layer_support_.loop available_layers rest
    else
      (false, [Event.cout (MSG_PREFIX ++ layer_name ++ " not supported")])

/-- The member function `check_instance_layer_support_`. -/
def check_instance_layer_support_ (h : Host) (s : Program_base) : Bool × List Event :=
  let r := check_instance_layer_support_.loop h.available_layers s.req_inst_layers_
  (r.1, [Event.vkEnumerateInstanceLayerProperties,
         Event.vkEnumerateInstanceLayerProperties] ++ r.2)

/-! ## Instance and diagnostic channel -/

/-- The member function `init_vk_`. -/
def init_vk_ (h : Host) (s : Program_base) : Outcome :=
  { state := { s with instance_ := true }
    trace := [Event.createInstance h.prog_name s.req_inst_layers_ s.req_inst_extensions_]
    raised := none }

/-- The member function `create_debug_report_callback_`: the `VkResult` it
returns, the members afterwards and the calls made. -/
def create_debug_report_callback_ (h : Host) (s : Program_base) (flags : Nat) :
    VkResult × Program_base × List Event :=
  if "vkCreateDebugReportCallbackEXT" ∈ h.instance_procs then
    (h.create_callback_result,
     { s with debug_report_ := decide (h.create_callback_result = VK_SUCCESS) },
     [Event.vkGetInstanceProcAddr "vkCreateDebugReportCallbackEXT",
      Event.vkCreateDebugReportCallbackEXT flags])
  else
    (VK_ERROR_EXTENSION_NOT_PRESENT, s,
     [Event.vkGetInstanceProcAddr "vkCreateDebugReportCallbackEXT"])

/-- Modelled from the spec: `assert_success` of `assert.hpp`, which is not among
the sources.  Section 7: "Backend call failure (any operation against the
Context, device, or surface returning a non-success result): treated as
unrecoverable -- the assertion contract is that any such result aborts the
process immediately; there is no retry or degraded-mode path at this layer."
The helper sees only the `VkResult` it is given, so it raises on every value
other than `VK_SUCCESS`. -/
def assert_success (res : VkResult) : Option Err :=
  if res = VK_SUCCESS then none
  else some (Err.assertion_failed "assert_success")

/-- The member function `init_debug_report_`. -/
def init_debug_report_ (h : Host) (s : Program_base) : Outcome :=
  if s.enable_validation_ then
    let flags0 := VK_DEBUG_REPORT_WARNING_BIT_EXT |||
      VK_DEBUG_REPORT_PERFORMANCE_WARNING_BIT_EXT |||
      VK_DEBUG_REPORT_ERROR_BIT_EXT
    let flags := if DEBUG_REPORT_VERBOSE then
        VK_DEBUG_REPORT_INFORMATION_BIT_EXT ||| VK_DEBUG_REPORT_DEBUG_BIT_EXT
      else flags0
    let r := create_debug_report_callback_ h s flags
    { state := r.2.1, trace := r.2.2, raised := assert_success r.1 }
  else
    { state := s, trace := [], raised := none }

/-- The member function `destroy_debug_report_callback_`: the calls it makes. -/
def destroy_debug_report_callback_ (h : Host) (s : Program_base) : List Event :=
  if "vkDestroyDebugReportCallbackEXT" ∈ h.instance_procs then
    [Event.vkGetInstanceProcAddr "vkDestroyDebugReportCallbackEXT",
     Event.vkDestroyDebugReportCallbackEXT]
  else
    [Event.vkGetInstanceProcAddr "vkDestroyDebugReportCallbackEXT"]

/-! ## Surface negotiation -/

/-- The `for` loop of `init_surface_`: the first reported entry whose format is
the requested one, if there is one. -/
def init_surface_.scan (format : Format) : List SurfaceFormatKHR → Option SurfaceFormatKHR
  | [] => none
  | surface_format :: rest =>
    if surface_format.format = format then some surface_format
    else init_surface_.scan format rest

/-- The member function `init_surface_`.  `assert` is the standard macro with
assertions enabled (a fatal assertion, in the words of the specification). -/
def init_surface_ (h : Host) (s : Program_base) (format : Format) : Outcome :=
  let s1 := { s with surface_ := true }
  if s.p_phy_dev_ = false then
    { state := s1, trace := [Event.createWin32SurfaceKHR],
      raised := some (Err.null_dereference "p_phy_dev_") }
  else if h.surface_supported = 0 then
    { state := s1, trace := [Event.createWin32SurfaceKHR, Event.getSurfaceSupportKHR],
      raised := some (Err.assertion_failed "supported") }
  else
    let t := [Event.createWin32SurfaceKHR, Event.getSurfaceSupportKHR,
      Event.getSurfaceFormatsKHR]
    match h.surface_formats with
    | [] =>
      { state := s1, trace := t,
        raised := some (Err.assertion_failed "!surface_formats.empty()") }
    | first :: others =>
      if (first :: others).length = 1 ∧ first.format = Format.eUndefined then
        { state := { s1 with
            surface_format_ := { format := format, colorSpace := first.colorSpace } },
          trace := t, raised := none }
      else
        match init_surface_.scan format (first :: others) with
        | some surface_format =>
          { state := { s1 with surface_format_ := surface_format },
            trace := t, raised := none }
        | none =>
          { state := { s1 with surface_format_ := first }, trace := t, raised := none }

/-! ## Initialization and teardown -/

/-- The first statements of `init_base`: the names it pushes on the request
lists before the layers are checked. -/
def init_base.requests (s : Program_base) : Program_base :=
  let s1 := { s with
    req_inst_extensions_ := s.req_inst_extensions_ ++
      [VK_KHR_SURFACE_EXTENSION_NAME, VK_KHR_WIN32_SURFACE_EXTENSION_NAME]
    req_device_extensions_ := s.req_device_extensions_ ++
      [VK_KHR_SWAPCHAIN_EXTENSION_NAME] }
  if s1.enable_validation_ then
    { s1 with
      req_inst_layers_ := s1.req_inst_layers_ ++ ["VK_LAYER_LUNARG_standard_validation"]
      req_inst_extensions_ := s1.req_inst_extensions_ ++
        [VK_EXT_DEBUG_REPORT_EXTENSION_NAME] }
  else s1

/-- The member function `init_base`. -/
def init_base (h : Host) (s : Program_base) (format : Format) : Outcome :=
  let s2 := init_base.requests s
  let c := check_instance_layer_support_ h s2
  if c.1 = false then
    { state := s2, trace := c.2,
      raised := some (Err.runtime_error (MSG_PREFIX ++ "missing instance layer support")) }
  else
    let o1 := init_vk_ h s2
    let o2 := init_debug_report_ h o1.state
    match o2.raised with
    | some e => { state := o2.state, trace := c.2 ++ o1.trace ++ o2.trace, raised := some e }
    | none =>
      let s3 := { o2.state with p_phy_dev_ := true }
      let s4 := { s3 with p_dev_ := true }
      let o3 := init_surface_ h s4 format
      { state := o3.state,
        trace := c.2 ++ o1.trace ++ o2.trace ++
          [Event.new_Physical_device s3.req_device_extensions_, Event.new_Device,
           Event.init_window] ++ o3.trace,
        raised := o3.raised }

/-- The destructor `Program_base::~Program_base`. -/
def Program_base.destructor (h : Host) (s : Program_base) : Outcome :=
  if s.p_dev_ = false then
    { state := s, trace := [], raised := some (Err.null_dereference "p_dev_") }
  else
    { state := { s with
        p_dev_ := false, p_phy_dev_ := false, surface_ := false, instance_ := false },
      trace := [Event.waitIdle, Event.delete_Device, Event.delete_Physical_device,
          Event.destroySurfaceKHR, Event.destroy_window] ++
        (if s.enable_validation_ then destroy_debug_report_callback_ h s else []) ++
        [Event.instance_destroy],
      raised := none }

/-! ## The frame loop -/

/-- The timer of `run`, with the arithmetic done on its readings: `get n` is the
value of the call number `n` of `timer.get()`, `sub` the subtraction of two
`double`s, `narrow` the conversion of a `double` to the `float` parameter of
`present_back_buffer_`. -/
structure Timer (T F : Type) where
  get : Nat → T
  sub : T → T → T
  narrow : T → F

/-- The calls made by `run`. -/
inductive FrameEvent (T F : Type) where
  | TranslateMessage (msg : MSG)
  | DispatchMessage (msg : MSG)
  | acquire_back_buffer_
  | fps_counter_update (delta_time : T)
  | present_back_buffer_ (elapsed_time : F) (delta_time : F)
  deriving DecidableEq, Repr

/-- The inner `while (PeekMessage(...))` loop of `run`, over the messages that
`PeekMessage` delivers before it reports an empty queue: whether `quit` was
set, and the calls made. -/
def run.pump {T F : Type} : List MSG → Bool × List (FrameEvent T F)
  | [] => (false, [])
  | msg :: rest =>
    if msg.message = WM_QUIT then (true, [])
    else
      let r := run.pump (T := T) (F := F) rest
      (r.1, [FrameEvent.TranslateMessage msg, FrameEvent.DispatchMessage msg] ++ r.2)

/-- The outer `while (true)` loop of `run`, after `reads` calls of `timer.get()`.
Each element of the list is what one run of the inner loop finds in the message
queue.  The result is `none` when the list ends before a quit is seen: the loop
is then still running. -/
def run.loop {T F : Type} (timer : Timer T F) :
    Nat → T → List (List MSG) → Option (List (FrameEvent T F))
  | _, _, [] => none
  | reads, prev_time, pending :: later =>
    let r := run.pump (T := T) (F := F) pending
    if r.1 then some r.2
    else
      let curr_time := timer.get reads
      let delta_time := timer.sub curr_time prev_time
      match run.loop timer (reads + 1) curr_time later with
      | none => none
      | some t =>
        some (r.2 ++ [FrameEvent.acquire_back_buffer_,
          FrameEvent.fps_counter_update delta_time,
          FrameEvent.present_back_buffer_ (timer.narrow curr_time)
            (timer.narrow delta_time)] ++ t)

/-- The member function `run`: the calls it makes, when it returns. -/
def run {T F : Type} (timer : Timer T F) (pumps : List (List MSG)) :
    Option (List (FrameEvent T F)) :=
  run.loop timer 1 (timer.get 0) pumps

/-! ## Sample inputs -/

/-- The members right after construction with validation disabled, once a
physical device has been acquired. -/
def sample_state_with_device : Program_base :=
  { (Program_base.construct false).state with p_phy_dev_ := true, p_dev_ := true }

/-- A host whose surface reports three formats, two of them with format 37. -/
def sample_host_three_formats : Host :=
  { available_layers := []
    instance_procs := []
    create_callback_result := VK_SUCCESS
    surface_supported := VK_TRUE
    surface_formats := [{ format := 44, colorSpace := 0 }, { format := 37, colorSpace := 0 },
      { format := 37, colorSpace := 1 }]
    prog_name := "sample" }

/-- A host whose surface reports the single entry (Undefined, 5). -/
def sample_host_undefined_format : Host :=
  { available_layers := []
    instance_procs := []
    create_callback_result := VK_SUCCESS
    surface_supported := VK_TRUE
    surface_formats := [{ format := Format.eUndefined, colorSpace := 5 }]
    prog_name := "sample" }

/-- A host whose surface reports two formats, neither of them 37. -/
def sample_host_no_match : Host :=
  { available_layers := []
    instance_procs := []
    create_callback_result := VK_SUCCESS
    surface_supported := VK_TRUE
    surface_formats := [{ format := 44, colorSpace := 0 }, { format := 50, colorSpace := 0 }]
    prog_name := "sample" }

/-- The layer requested when validation is enabled, as the host reports it. -/
def sample_validation_layer : VkLayerProperties :=
  { layerName := "VK_LAYER_LUNARG_standard_validation"
    specVersion := 1
    implementationVersion := 1
    description := "validation" }

/-- A host that offers the validation layer, both debug-report entry points
and one surface format. -/
def sample_host_full : Host :=
  { available_layers := [sample_validation_layer]
    instance_procs := ["vkCreateDebugReportCallbackEXT", "vkDestroyDebugReportCallbackEXT"]
    create_callback_result := VK_SUCCESS
    surface_supported := VK_TRUE
    surface_formats := [{ format := 37, colorSpace := 0 }]
    prog_name := "sample" }

/-- A host like `sample_host_full` whose `vkGetInstanceProcAddr` finds the
registration entry point but not the unregistration entry point. -/
def sample_host_no_destroy : Host :=
  { sample_host_full with instance_procs := ["vkCreateDebugReportCallbackEXT"] }

/-- A host like `sample_host_full` that reports no layer at all. -/
def sample_host_no_layers : Host :=
  { sample_host_full with available_layers := [] }

/-- The members of a program that requests three layers, the second and third
of which no sample host offers. -/
def sample_state_three_layers : Program_base :=
  { (Program_base.construct false).state with
    req_inst_layers_ := ["VK_LAYER_LUNARG_standard_validation", "VK_LAYER_absent_one",
      "VK_LAYER_absent_two"] }

/-! ## Vocabulary of the specification -/

/-- The five severities of the specification, section 4.2. -/
inductive Severity where
  | Error
  | Warning
  | Information
  | PerformanceWarning
  | Debug
  deriving DecidableEq, Repr

/-- The position, in the flag word, of the bit of a severity. -/
def Severity.bit : Severity → Nat
  | Severity.Error => 3
  | Severity.Warning => 1
  | Severity.Information => 0
  | Severity.PerformanceWarning => 2
  | Severity.Debug => 4

/-- The label a message of a severity is written with. -/
def Severity.label : Severity → String
  | Severity.Error => "ERROR"
  | Severity.Warning => "WARNING"
  | Severity.Information => "INFORMATION"
  | Severity.PerformanceWarning => "PERFORMANCE"
  | Severity.Debug => "DEBUG"

/-- The stream a message of a severity is routed to: the error stream for
Error, the standard output for the others. -/
def Severity.stream : Severity → OStream
  | Severity.Error => OStream.cerr
  | _ => OStream.cout

/-- The strict priority order of the specification. -/
def Severity.priority_order : List Severity :=
  [Severity.Error, Severity.Warning, Severity.Information,
   Severity.PerformanceWarning, Severity.Debug]

/-- The classification required by the specification: the first severity, in
priority order, whose bit is set in the flag word; none when no recognized bit
is set. -/
def Severity.classify (msg_flags : Nat) : Option Severity :=
  Severity.priority_order.find? (fun sv => msg_flags.testBit sv.bit)

/-- The objects of the data model of the specification, section 3. -/
inductive Resource where
  | Context
  | DiagnosticChannel
  | PhysicalDevice
  | LogicalDevice
  | Window
  | Surface
  deriving DecidableEq, Repr

/-- The object a call creates, if it creates one. -/
def Event.creates : Event → Option Resource
  | Event.createInstance _ _ _ => some Resource.Context
  | Event.vkCreateDebugReportCallbackEXT _ => some Resource.DiagnosticChannel
  | Event.new_Physical_device _ => some Resource.PhysicalDevice
  | Event.new_Device => some Resource.LogicalDevice
  | Event.init_window => some Resource.Window
  | Event.createWin32SurfaceKHR => some Resource.Surface
  | _ => none

/-- The object a call destroys, if it destroys one. -/
def Event.destroys : Event → Option Resource
  | Event.instance_destroy => some Resource.Context
  | Event.vkDestroyDebugReportCallbackEXT => some Resource.DiagnosticChannel
  | Event.delete_Physical_device => some Resource.PhysicalDevice
  | Event.delete_Device => some Resource.LogicalDevice
  | Event.destroy_window => some Resource.Window
  | Event.destroySurfaceKHR => some Resource.Surface
  | _ => none

/-- Masking with a single bit is non-zero exactly when that bit is set. -/
theorem land_two_pow_ne_zero_iff (n i : Nat) :
    n &&& 2 ^ i ≠ 0 ↔ n.testBit i = true := by
  rw [Nat.and_two_pow]
  cases n.testBit i <;> simp

theorem error_bit_iff (n : Nat) :
    n &&& VK_DEBUG_REPORT_ERROR_BIT_EXT ≠ 0 ↔ n.testBit 3 = true :=
  land_two_pow_ne_zero_iff n 3

theorem warning_bit_iff (n : Nat) :
    n &&& VK_DEBUG_REPORT_WARNING_BIT_EXT ≠ 0 ↔ n.testBit 1 = true :=
  land_two_pow_ne_zero_iff n 1

theorem information_bit_iff (n : Nat) :
    n &&& VK_DEBUG_REPORT_INFORMATION_BIT_EXT ≠ 0 ↔ n.testBit 0 = true :=
  land_two_pow_ne_zero_iff n 0

theorem performance_bit_iff (n : Nat) :
    n &&& VK_DEBUG_REPORT_PERFORMANCE_WARNING_BIT_EXT ≠ 0 ↔ n.testBit 2 = true :=
  land_two_pow_ne_zero_iff n 2

theorem debug_bit_iff (n : Nat) :
    n &&& VK_DEBUG_REPORT_DEBUG_BIT_EXT ≠ 0 ↔ n.testBit 4 = true :=
  land_two_pow_ne_zero_iff n 4

/-! ## Lemmas on layer validation -/

theorem found_eq_true_iff (layer_name : String) (available : List VkLayerProperties) :
    check_instance_layer_support_.found layer_name available = true ↔
      ∃ a ∈ available, a.layerName = layer_name := by
  induction available with
  | nil => simp [check_instance_layer_support_.found]
  | cons a rest ih =>
    by_cases hEq : layer_name = a.layerName
    · simp [check_instance_layer_support_.found, hEq]
    · have hne : ¬ a.layerName = layer_name := fun hh => hEq hh.symm
      simp [check_instance_layer_support_.found, hEq, hne, ih]

theorem found_eq_false_iff (layer_name : String) (available : List VkLayerProperties) :
    check_instance_layer_support_.found layer_name available = false ↔
      ∀ a ∈ available, a.layerName ≠ layer_name := by
  rw [← Bool.not_eq_true, found_eq_true_iff]
  simp

theorem loop_fst_eq_true_iff (available : List VkLayerProperties) (req : List String) :
    (check_instance_layer_support_.loop available req).1 = true ↔
      ∀ l ∈ req, ∃ a ∈ available, a.layerName = l := by
  induction req with
  | nil => simp [check_instance_layer_support_.loop]
  | cons l rest ih =>
    by_cases hf : check_instance_layer_support_.found l available = true
    · have hex := (found_eq_true_iff l available).mp hf
      simp only [check_instance_layer_support_.loop, hf, if_true, ih, List.mem_cons,
        forall_eq_or_imp]
      exact ⟨fun hh => ⟨hex, hh⟩, fun hh => hh.2⟩
    · have hno : ¬ ∃ a ∈ available, a.layerName = l :=
        fun hh => hf ((found_eq_true_iff l available).mpr hh)
      simp only [check_instance_layer_support_.loop, hf, List.mem_cons, forall_eq_or_imp]
      simp [hno]

theorem loop_first_missing (available : List VkLayerProperties) (pre : List String)
    (m : String) (post : List String)
    (hpre : ∀ l ∈ pre, ∃ a ∈ available, a.layerName = l)
    (hm : ∀ a ∈ available, a.layerName ≠ m) :
    check_instance_layer_support_.loop available (pre ++ m :: post) =
      (false, [Event.cout (MSG_PREFIX ++ m ++ " not supported")]) := by
  induction pre with
  | nil =>
    have hf := (found_eq_false_iff m available).mpr hm
    simp [check_instance_layer_support_.loop, hf]
  | cons l rest ih =>
    have hl : check_instance_layer_support_.found l available = true :=
      (found_eq_true_iff l available).mpr (hpre l (List.mem_cons_self l rest))
    have ih2 := ih (fun x hx => hpre x (List.mem_cons_of_mem l hx))
    simp [check_instance_layer_support_.loop, hl, ih2]

theorem loop_false_split (available : List VkLayerProperties) (req : List String)
    (hfalse : (check_instance_layer_support_.loop available req).1 = false) :
    ∃ pre m post, req = pre ++ m :: post ∧
      (∀ l ∈ pre, ∃ a ∈ available, a.layerName = l) ∧
      (∀ a ∈ available, a.layerName ≠ m) := by
  induction req with
  | nil => simp [check_instance_layer_support_.loop] at hfalse
  | cons l rest ih =>
    by_cases hf : check_instance_layer_support_.found l available = true
    · simp only [check_instance_layer_support_.loop, hf, if_true] at hfalse
      obtain ⟨pre, m, post, hreq, hpre, hm⟩ := ih hfalse
      refine ⟨l :: pre, m, post, by simp [hreq], ?_, hm⟩
      intro x hx
      rcases List.mem_cons.mp hx with hx | hx
      · subst hx
        exact (found_eq_true_iff x available).mp hf
      · exact hpre x hx
    · refine ⟨[], l, rest, by simp, by simp, ?_⟩
      simp only [Bool.not_eq_true] at hf
      exact (found_eq_false_iff l available).mp hf

theorem loop_true_snd (available : List VkLayerProperties) (req : List String)
    (htrue : (check_instance_layer_support_.loop available req).1 = true) :
    (check_instance_layer_support_.loop available req).2 = [] := by
  induction req with
  | nil => simp [check_instance_layer_support_.loop]
  | cons l rest ih =>
    by_cases hf : check_instance_layer_support_.found l available = true
    · simp only [check_instance_layer_support_.loop, hf, if_true] at htrue ⊢
      exact ih htrue
    · simp [check_instance_layer_support_.loop, hf] at htrue

/-! ## Lemmas on surface negotiation -/

theorem scan_first_match (format : Format) (pre : List SurfaceFormatKHR)
    (e : SurfaceFormatKHR) (post : List SurfaceFormatKHR)
    (he : e.format = format) (hpre : ∀ x ∈ pre, x.format ≠ format) :
    init_surface_.scan format (pre ++ e :: post) = some e := by
  induction pre with
  | nil => simp [init_surface_.scan, he]
  | cons x rest ih =>
    have hx : ¬ x.format = format := hpre x (List.mem_cons_self x rest)
    have ih2 := ih (fun y hy => hpre y (List.mem_cons_of_mem x hy))
    simp [init_surface_.scan, hx, ih2]

theorem scan_no_match (format : Format) (l : List SurfaceFormatKHR)
    (hl : ∀ x ∈ l, x.format ≠ format) :
    init_surface_.scan format l = none := by
  induction l with
  | nil => simp [init_surface_.scan]
  | cons x rest ih =>
    have hx : ¬ x.format = format := hl x (List.mem_cons_self x rest)
    have ih2 := ih (fun y hy => hl y (List.mem_cons_of_mem x hy))
    simp [init_surface_.scan, hx, ih2]

/-- The negotiation of `init_surface_`, once it is reached: the members and the
calls, in terms of the reported list `first :: others`. -/
theorem init_surface_reached (h : Host) (s : Program_base) (format : Format)
    (first : SurfaceFormatKHR) (others : List SurfaceFormatKHR)
    (hdev : s.p_phy_dev_ = true) (hsup : h.surface_supported ≠ 0)
    (hl : h.surface_formats = first :: others) :
    (init_surface_ h s format).raised = none ∧
    (init_surface_ h s format).trace =
      [Event.createWin32SurfaceKHR, Event.getSurfaceSupportKHR, Event.getSurfaceFormatsKHR] ∧
    (init_surface_ h s format).state = { s with
      surface_ := true
      surface_format_ :=
        if others = [] ∧ first.format = Format.eUndefined then
          { format := format, colorSpace := first.colorSpace }
        else (init_surface_.scan format (first :: others)).getD first } := by
  by_cases hc : others = [] ∧ first.format = Format.eUndefined
  · have hc2 : (first :: others).length = 1 ∧ first.format = Format.eUndefined := by
      simp [hc.1, hc.2]
    simp [init_surface_, hdev, hsup, hl, hc, hc2]
  · have hc2 : ¬ ((first :: others).length = 1 ∧ first.format = Format.eUndefined) := by
      intro hh
      apply hc
      refine ⟨?_, hh.2⟩
      have := hh.1
      simpa using this
    simp only [init_surface_, hdev, hsup, hl, hc, hc2]
    cases hsc : init_surface_.scan format (first :: others) <;> simp

/-! ## Lemmas on initialization -/

theorem init_debug_report_cases (h : Host) (s : Program_base) :
    (init_debug_report_ h s).state.enable_validation_ = s.enable_validation_ ∧
    (init_debug_report_ h s).state.req_device_extensions_ = s.req_device_extensions_ ∧
    ((init_debug_report_ h s).raised = none →
      (s.enable_validation_ = true →
        "vkCreateDebugReportCallbackEXT" ∈ h.instance_procs ∧
        h.create_callback_result = VK_SUCCESS) ∧
      (init_debug_report_ h s).trace =
        if s.enable_validation_ then
          [Event.vkGetInstanceProcAddr "vkCreateDebugReportCallbackEXT",
           Event.vkCreateDebugReportCallbackEXT 14]
        else []) := by
  by_cases he : s.enable_validation_ = true
  · by_cases hp : "vkCreateDebugReportCallbackEXT" ∈ h.instance_procs
    · by_cases hr : h.create_callback_result = VK_SUCCESS
      · simp [init_debug_report_, create_debug_report_callback_, assert_success, he, hp, hr,
          DEBUG_REPORT_VERBOSE]
        decide
      · simp [init_debug_report_, create_debug_report_callback_, assert_success, he, hp, hr,
          DEBUG_REPORT_VERBOSE]
    · simp [init_debug_report_, create_debug_report_callback_, assert_success, he, hp,
          DEBUG_REPORT_VERBOSE, VK_ERROR_EXTENSION_NOT_PRESENT, VK_SUCCESS]
  · simp [init_debug_report_, he]

theorem init_surface_fields (h : Host) (s : Program_base) (format : Format) :
    (init_surface_ h s format).state.enable_validation_ = s.enable_validation_ ∧
    (init_surface_ h s format).state.p_dev_ = s.p_dev_ ∧
    (init_surface_ h s format).state.p_phy_dev_ = s.p_phy_dev_ := by
  unfold init_surface_
  simp only []
  split_ifs
  · simp
  · simp
  · split
    · simp
    · split_ifs
      · simp
      · split <;> simp

theorem init_surface_success (h : Host) (s : Program_base) (format : Format)
    (hok : (init_surface_ h s format).raised = none) :
    s.p_phy_dev_ = true ∧ h.surface_supported ≠ 0 ∧
    (init_surface_ h s format).trace =
      [Event.createWin32SurfaceKHR, Event.getSurfaceSupportKHR, Event.getSurfaceFormatsKHR] := by
  by_cases hdev : s.p_phy_dev_ = true
  · by_cases hsup : h.surface_supported = 0
    · simp [init_surface_, hdev, hsup] at hok
    · cases hl : h.surface_formats with
      | nil => simp [init_surface_, hdev, hsup, hl] at hok
      | cons first others =>
        exact ⟨hdev, hsup, (init_surface_reached h s format first others hdev hsup hl).2.1⟩
  · simp [init_surface_, hdev] at hok

theorem requests_fields (s : Program_base) :
    (init_base.requests s).enable_validation_ = s.enable_validation_ ∧
    (init_base.requests s).req_inst_layers_ = s.req_inst_layers_ ++
      (if s.enable_validation_ then ["VK_LAYER_LUNARG_standard_validation"] else []) ∧
    (init_base.requests s).req_inst_extensions_ = s.req_inst_extensions_ ++
      [VK_KHR_SURFACE_EXTENSION_NAME, VK_KHR_WIN32_SURFACE_EXTENSION_NAME] ++
      (if s.enable_validation_ then [VK_EXT_DEBUG_REPORT_EXTENSION_NAME] else []) ∧
    (init_base.requests s).req_device_extensions_ = s.req_device_extensions_ ++
      [VK_KHR_SWAPCHAIN_EXTENSION_NAME] ∧
    (init_base.requests s).p_dev_ = s.p_dev_ ∧
    (init_base.requests s).p_phy_dev_ = s.p_phy_dev_ ∧
    (init_base.requests s).instance_ = s.instance_ ∧
    (init_base.requests s).surface_ = s.surface_ ∧
    (init_base.requests s).debug_report_ = s.debug_report_ := by
  cases he : s.enable_validation_ <;> simp [init_base.requests, he]

theorem init_base_success (h : Host) (s : Program_base) (format : Format)
    (hok : (init_base h s format).raised = none) :
    (s.enable_validation_ = true →
      "vkCreateDebugReportCallbackEXT" ∈ h.instance_procs ∧
      h.create_callback_result = VK_SUCCESS) ∧
    (init_base h s format).state.p_dev_ = true ∧
    (init_base h s format).state.enable_validation_ = s.enable_validation_ ∧
    (init_base h s format).trace =
      [Event.vkEnumerateInstanceLayerProperties, Event.vkEnumerateInstanceLayerProperties,
       Event.createInstance h.prog_name
        (s.req_inst_layers_ ++
          (if s.enable_validation_ then ["VK_LAYER_LUNARG_standard_validation"] else []))
        (s.req_inst_extensions_ ++
          [VK_KHR_SURFACE_EXTENSION_NAME, VK_KHR_WIN32_SURFACE_EXTENSION_NAME] ++
          (if s.enable_validation_ then [VK_EXT_DEBUG_REPORT_EXTENSION_NAME] else []))] ++
      (if s.enable_validation_ then
        [Event.vkGetInstanceProcAddr "vkCreateDebugReportCallbackEXT",
         Event.vkCreateDebugReportCallbackEXT 14]
       else []) ++
      [Event.new_Physical_device (s.req_device_extensions_ ++ [VK_KHR_SWAPCHAIN_EXTENSION_NAME]),
       Event.new_Device, Event.init_window,
       Event.createWin32SurfaceKHR, Event.getSurfaceSupportKHR,
       Event.getSurfaceFormatsKHR] := by
  obtain ⟨hq1, hq2, hq3, hq4, -⟩ := requests_fields s
  unfold init_base at hok ⊢
  generalize init_base.requests s = s2 at hok hq1 hq2 hq3 hq4 ⊢
  simp only [] at hok ⊢
  by_cases hc : (check_instance_layer_support_ h s2).1 = false
  · simp [hc] at hok
  · have hc1 : (check_instance_layer_support_ h s2).1 = true := by simpa using hc
    have hc2 : (check_instance_layer_support_ h s2).2 =
        [Event.vkEnumerateInstanceLayerProperties,
         Event.vkEnumerateInstanceLayerProperties] := by
      have hl := loop_true_snd h.available_layers s2.req_inst_layers_ hc1
      simp [check_instance_layer_support_, hl]
    obtain ⟨hd1, hd2, hd3⟩ := init_debug_report_cases h (init_vk_ h s2).state
    generalize init_debug_report_ h (init_vk_ h s2).state = o2 at hok hd1 hd2 hd3 ⊢
    cases hdr : o2.raised with
    | some e => simp [hc1, hdr] at hok
    | none =>
      obtain ⟨hen, htr⟩ := hd3 hdr
      simp only [init_vk_] at hen htr hd1 hd2
      simp only [hq1] at hen htr hd1
      simp only [hc1, hdr, Bool.true_eq_false, if_false] at hok ⊢
      obtain ⟨hf1, hf2, -⟩ := init_surface_fields h
        { o2.state with p_phy_dev_ := true, p_dev_ := true } format
      obtain ⟨-, -, hst⟩ := init_surface_success h
        { o2.state with p_phy_dev_ := true, p_dev_ := true } format hok
      refine ⟨hen, hf2, ?_, ?_⟩
      · rw [hf1]
        exact hd1
      · rw [hst, htr, hc2, hd2, hq4]
        simp [init_vk_, hq2, hq3]

/-! ## Lemmas on teardown -/

theorem destructor_of_device (h : Host) (s : Program_base) (hdev : s.p_dev_ = true) :
    (Program_base.destructor h s).raised = none ∧
    (Program_base.destructor h s).trace =
      [Event.waitIdle, Event.delete_Device, Event.delete_Physical_device,
       Event.destroySurfaceKHR, Event.destroy_window] ++
      (if s.enable_validation_ then
        Event.vkGetInstanceProcAddr "vkDestroyDebugReportCallbackEXT" ::
          (if "vkDestroyDebugReportCallbackEXT" ∈ h.instance_procs then
            [Event.vkDestroyDebugReportCallbackEXT]
           else [])
       else []) ++
      [Event.instance_destroy] := by
  by_cases he : s.enable_validation_ = true
  · by_cases hp : "vkDestroyDebugReportCallbackEXT" ∈ h.instance_procs
    · simp [Program_base.destructor, destroy_debug_report_callback_, hdev, he, hp]
    · simp [Program_base.destructor, destroy_debug_report_callback_, hdev, he, hp]
  · simp [Program_base.destructor, hdev, he]

/-! ## Lemmas on the frame loop -/

/-- C6. For every flag word and every value of the other arguments,
`debug_report_callback` returns `VK_TRUE` if and only if the Error bit (bit 3)
of the flag word is set, and returns `VK_FALSE` if and only if it is not set,
whatever the other bits are. -/
theorem debug_report_callback_return_contract (msg_flags obj_type object location : Nat)
    (msg_code : Int) ( layer_prefix msg : String) (pUserData : Nat) :
    ((debug_report_callback msg_flags obj_type object location msg_code layer_prefix msg
        pUserData).ret = VK_TRUE ↔ msg_flags.testBit 3 = true) ∧
    ((debug_report_callback msg_flags obj_type object location msg_code layer_prefix msg
        pUserData).ret = VK_FALSE ↔ msg_flags.testBit 3 = false) := by
  have he := error_bit_iff msg_flags
  by_cases h3 : msg_flags.testBit 3 = true
  · have h : msg_flags &&& VK_DEBUG_REPORT_ERROR_BIT_EXT ≠ 0 := he.mpr h3
    simp [debug_report_callback, h, h3, VK_TRUE, VK_FALSE]
  · have h : ¬ (msg_flags &&& VK_DEBUG_REPORT_ERROR_BIT_EXT ≠ 0) := fun hh => h3 (he.mp hh)
    simp only [Bool.not_eq_true] at h3
    simp only [debug_report_callback, h, if_false, h3]
    refine ⟨?_, ?_⟩ <;> split_ifs <;> simp [VK_TRUE, VK_FALSE]

/-- C7. For every flag word, `debug_report_callback` writes output if and only
if one of the five recognized bits is set, and what it writes is the line of
the first severity, in the order Error, Warning, Information,
Performance-Warning, Debug, whose bit is set, on that severity's stream,
whatever other bits are set.  In particular a word with the Error and Warning
bits (0x0A) is written as ERROR, and a word with none of the five bits (0x20)
writes nothing. -/
theorem debug_report_callback_classification (msg_flags obj_type object location : Nat)
    (msg_code : Int) ( layer_prefix msg : String) (pUserData : Nat) :
    (((debug_report_callback msg_flags obj_type object location msg_code layer_prefix msg
        pUserData).output.isSome = true) ↔
      (msg_flags.testBit 3 = true ∨ msg_flags.testBit 1 = true ∨ msg_flags.testBit 0 = true ∨
        msg_flags.testBit 2 = true ∨ msg_flags.testBit 4 = true)) ∧
    (debug_report_callback msg_flags obj_type object location msg_code layer_prefix msg
        pUserData).output =
      (Severity.classify msg_flags).map (fun sv =>
        (sv.stream, ">> " ++ sv.label ++ " | layer " ++ layer_prefix ++
          " | code " ++ toString msg_code ++ ":\n" ++ msg ++ "\n")) ∧
    (debug_report_callback 0x0A obj_type object location msg_code layer_prefix msg
        pUserData).output =
      some (OStream.cerr, ">> ERROR | layer " ++ layer_prefix ++
          " | code " ++ toString msg_code ++ ":\n" ++ msg ++ "\n") ∧
    (debug_report_callback 0x20 obj_type object location msg_code layer_prefix msg
        pUserData).output = none := by
  have h3 := error_bit_iff msg_flags
  have h1 := warning_bit_iff msg_flags
  have h0 := information_bit_iff msg_flags
  have h2 := performance_bit_iff msg_flags
  have h4 := debug_bit_iff msg_flags
  refine ⟨?_, ?_, ?_, ?_⟩
  · simp only [debug_report_callback, h3, h1, h0, h2, h4]
    cases msg_flags.testBit 3 <;> cases msg_flags.testBit 1 <;>
      cases msg_flags.testBit 0 <;> cases msg_flags.testBit 2 <;>
      cases msg_flags.testBit 4 <;> simp
  · simp only [debug_report_callback, h3, h1, h0, h2, h4, Severity.classify,
      Severity.priority_order, List.find?, Severity.bit]
    cases msg_flags.testBit 3 <;> cases msg_flags.testBit 1 <;>
      cases msg_flags.testBit 0 <;> cases msg_flags.testBit 2 <;>
      cases msg_flags.testBit 4 <;>
      simp [Severity.stream, Severity.label]
  · simp [debug_report_callback, VK_DEBUG_REPORT_ERROR_BIT_EXT]
  · have e8 : (32 : Nat) &&& 8 = 0 := by decide
    have e2 : (32 : Nat) &&& 2 = 0 := by decide
    have e4 : (32 : Nat) &&& 4 = 0 := by decide
    have e16 : (32 : Nat) &&& 16 = 0 := by decide
    simp [debug_report_callback, VK_DEBUG_REPORT_ERROR_BIT_EXT,
      VK_DEBUG_REPORT_WARNING_BIT_EXT, VK_DEBUG_REPORT_INFORMATION_BIT_EXT,
      VK_DEBUG_REPORT_PERFORMANCE_WARNING_BIT_EXT, VK_DEBUG_REPORT_DEBUG_BIT_EXT,
      e8, e2, e4, e16]

/-! ## Layer validation -/

/-- C2. For every request list and every list of available layers,
`check_instance_layer_support_` returns true exactly when every requested name
is the name of some available layer, and then writes nothing.  When it returns
false, the request list splits as `pre ++ m :: post` with every name of `pre`
available and `m` not available, the only line written reports `m` as not
supported, and the outcome is the same whatever follows `m` in the request
list: no later requested layer is examined or reported. -/
theorem check_instance_layer_support_spec (h : Host) (s : Program_base) :
    ((check_instance_layer_support_ h s).1 = true ↔
      ∀ l ∈ s.req_inst_layers_, ∃ a ∈ h.available_layers, a.layerName = l) ∧
    ((check_instance_layer_support_ h s).1 = true →
      (check_instance_layer_support_ h s).2 =
        [Event.vkEnumerateInstanceLayerProperties,
         Event.vkEnumerateInstanceLayerProperties]) ∧
    ((check_instance_layer_support_ h s).1 = false →
      ∃ pre m post, s.req_inst_layers_ = pre ++ m :: post ∧
        (∀ l ∈ pre, ∃ a ∈ h.available_layers, a.layerName = l) ∧
        (∀ a ∈ h.available_layers, a.layerName ≠ m) ∧
        (check_instance_layer_support_ h s).2 =
          [Event.vkEnumerateInstanceLayerProperties,
           Event.vkEnumerateInstanceLayerProperties,
           Event.cout (MSG_PREFIX ++ m ++ " not supported")] ∧
        ∀ later : List String,
          check_instance_layer_support_ h { s with req_inst_layers_ := pre ++ m :: later } =
            check_instance_layer_support_ h s) := by
  refine ⟨?_, ?_, ?_⟩
  · exact loop_fst_eq_true_iff h.available_layers s.req_inst_layers_
  · intro htrue
    have h2 := loop_true_snd h.available_layers s.req_inst_layers_ htrue
    simp [check_instance_layer_support_, h2]
  · intro hfalse
    obtain ⟨pre, m, post, hreq, hpre, hm⟩ :=
      loop_false_split h.available_layers s.req_inst_layers_ hfalse
    have hl := loop_first_missing h.available_layers pre m post hpre hm
    refine ⟨pre, m, post, hreq, hpre, hm, ?_, ?_⟩
    · simp [check_instance_layer_support_, hreq, hl]
    · intro later
      have hl2 := loop_first_missing h.available_layers pre m later hpre hm
      simp [check_instance_layer_support_, hreq, hl, hl2]

/-- A use of `check_instance_layer_support_spec`: of the three requested layers
the host offers only the first, and the check returns false with the split
that the theorem gives. -/
theorem check_instance_layer_support_spec_witness :
    (check_instance_layer_support_ sample_host_full sample_state_three_layers).1 = false ∧
    (check_instance_layer_support_ sample_host_full sample_state_three_layers).2 =
      [Event.vkEnumerateInstanceLayerProperties, Event.vkEnumerateInstanceLayerProperties,
       Event.cout "-- PROGRAM_BASE: VK_LAYER_absent_one not supported"] ∧
    ∃ pre m post, sample_state_three_layers.req_inst_layers_ = pre ++ m :: post ∧
      (∀ l ∈ pre, ∃ a ∈ sample_host_full.available_layers, a.layerName = l) ∧
      (∀ a ∈ sample_host_full.available_layers, a.layerName ≠ m) ∧
      (check_instance_layer_support_ sample_host_full sample_state_three_layers).2 =
        [Event.vkEnumerateInstanceLayerProperties,
         Event.vkEnumerateInstanceLayerProperties,
         Event.cout (MSG_PREFIX ++ m ++ " not supported")] ∧
      ∀ later : List String,
        check_instance_layer_support_ sample_host_full
          { sample_state_three_layers with req_inst_layers_ := pre ++ m :: later } =
          check_instance_layer_support_ sample_host_full sample_state_three_layers :=
  ⟨by decide, by decide,
   (check_instance_layer_support_spec sample_host_full sample_state_three_layers).2.2
     (by decide)⟩

/-! ## Surface negotiation -/

/-- C1. For every requested format `F` and every non-empty supported list `L`,
the negotiation of `init_surface_` (reached once a physical device is held and
the surface reports presentation support) follows the three-step policy: if `L`
is a single entry of format Undefined, the negotiated pair is `F` with that
entry's colorspace; otherwise, if some entry of `L` has format `F`, it is the
first such entry of `L`; otherwise it is the first entry of `L`. -/
theorem init_surface_policy (h : Host) (s : Program_base) (F : Format)
    (hdev : s.p_phy_dev_ = true) (hsup : h.surface_supported ≠ 0)
    (hne : h.surface_formats ≠ []) :
    (init_surface_ h s F).raised = none ∧
    (∀ c : ColorSpaceKHR,
      h.surface_formats = [{ format := Format.eUndefined, colorSpace := c }] →
      (init_surface_ h s F).state.surface_format_ = { format := F, colorSpace := c }) ∧
    (∀ (pre : List SurfaceFormatKHR) (e : SurfaceFormatKHR) (post : List SurfaceFormatKHR),
      (¬ ∃ c : ColorSpaceKHR,
        h.surface_formats = [{ format := Format.eUndefined, colorSpace := c }]) →
      h.surface_formats = pre ++ e :: post →
      e.format = F → (∀ x ∈ pre, x.format ≠ F) →
      (init_surface_ h s F).state.surface_format_ = e) ∧
    (∀ (first : SurfaceFormatKHR) (others : List SurfaceFormatKHR),
      (¬ ∃ c : ColorSpaceKHR,
        h.surface_formats = [{ format := Format.eUndefined, colorSpace := c }]) →
      h.surface_formats = first :: others →
      (∀ x ∈ h.surface_formats, x.format ≠ F) →
      (init_surface_ h s F).state.surface_format_ = first) := by
  obtain ⟨first, others, hl⟩ := List.exists_cons_of_ne_nil hne
  obtain ⟨hr, -, hs⟩ := init_surface_reached h s F first others hdev hsup hl
  refine ⟨hr, ?_, ?_, ?_⟩
  · intro c hc
    rw [hc] at hl
    injection hl with h1 h2
    subst h1
    subst h2
    simp [hs]
  · intro pre e post hnot hsplit he hpre
    have hc : ¬ (others = [] ∧ first.format = Format.eUndefined) := by
      rintro ⟨ho, hf⟩
      apply hnot
      refine ⟨first.colorSpace, ?_⟩
      rw [hl, ho]
      cases first
      simp_all
    have hscan : init_surface_.scan F (first :: others) = some e := by
      rw [← hl, hsplit]
      exact scan_first_match F pre e post he hpre
    simp [hs, hc, hscan]
  · intro first2 others2 hnot hl2 hno
    have hc : ¬ (others = [] ∧ first.format = Format.eUndefined) := by
      rintro ⟨ho, hf⟩
      apply hnot
      refine ⟨first.colorSpace, ?_⟩
      rw [hl, ho]
      cases first
      simp_all
    have hscan : init_surface_.scan F (first :: others) = none := by
      rw [← hl]
      exact scan_no_match F h.surface_formats hno
    rw [hl] at hl2
    injection hl2 with h1 h2
    subst h1
    simp [hs, hc, hscan]

/-- A use of `init_surface_policy`: with the reported list
`[(44, 0), (37, 0), (37, 1)]` and the request 37 the negotiated pair is
`(37, 0)`, the first entry of format 37. -/
theorem init_surface_policy_witness :
    sample_state_with_device.p_phy_dev_ = true ∧
    sample_host_three_formats.surface_supported ≠ 0 ∧
    sample_host_three_formats.surface_formats ≠ [] ∧
    (init_surface_ sample_host_three_formats sample_state_with_device 37).raised = none ∧
    (init_surface_ sample_host_three_formats sample_state_with_device 37).state.surface_format_
      = { format := 37, colorSpace := 0 } :=
  ⟨by decide, by decide, by decide,
   (init_surface_policy sample_host_three_formats sample_state_with_device 37
      (by decide) (by decide) (by decide)).1,
   (init_surface_policy sample_host_three_formats sample_state_with_device 37
      (by decide) (by decide) (by decide)).2.2.1
      [{ format := 44, colorSpace := 0 }] { format := 37, colorSpace := 0 }
      [{ format := 37, colorSpace := 1 }]
      (by simp [sample_host_three_formats]) (by decide) (by decide) (by decide)⟩

/-- C10, as stated, fails: the reported list is the single entry
`(Undefined, 5)`, no entry has the requested format `eR8G8B8A8Unorm`, and the
negotiated pair is `(eR8G8B8A8Unorm, 5)`, not the first entry `(Undefined, 5)`. -/
theorem init_surface_fallback_counterexample :
    sample_host_undefined_format.surface_formats =
      [{ format := Format.eUndefined, colorSpace := 5 }] ∧
    Format.eR8G8B8A8Unorm ∉
      sample_host_undefined_format.surface_formats.map SurfaceFormatKHR.format ∧
    (init_surface_ sample_host_undefined_format sample_state_with_device
      Format.eR8G8B8A8Unorm).raised = none ∧
    (init_surface_ sample_host_undefined_format sample_state_with_device
      Format.eR8G8B8A8Unorm).state.surface_format_ =
        { format := Format.eR8G8B8A8Unorm, colorSpace := 5 } ∧
    (init_surface_ sample_host_undefined_format sample_state_with_device
      Format.eR8G8B8A8Unorm).state.surface_format_ ≠
        { format := Format.eUndefined, colorSpace := 5 } := by
  decide

/-- C10, amended. For every requested format `F` and every non-empty supported
list in which no entry has format `F`, and which is not a single entry of
format Undefined, the negotiation of `init_surface_` (reached once a physical
device is held and the surface reports presentation support) yields the first
entry of the list unchanged. -/
theorem init_surface_fallback_first (h : Host) (s : Program_base) (F : Format)
    (first : SurfaceFormatKHR) (others : List SurfaceFormatKHR)
    (hdev : s.p_phy_dev_ = true) (hsup : h.surface_supported ≠ 0)
    (hl : h.surface_formats = first :: others)
    (hnot : ¬ (others = [] ∧ first.format = Format.eUndefined))
    (hno : ∀ x ∈ h.surface_formats, x.format ≠ F) :
    (init_surface_ h s F).raised = none ∧
    (init_surface_ h s F).state.surface_format_ = first := by
  obtain ⟨hr, -, hs⟩ := init_surface_reached h s F first others hdev hsup hl
  have hscan : init_surface_.scan F (first :: others) = none := by
    rw [← hl]
    exact scan_no_match F h.surface_formats hno
  refine ⟨hr, ?_⟩
  simp [hs, hnot, hscan]

/-- A use of `init_surface_fallback_first`: with the reported list
`[(44, 0), (50, 0)]` and the request 37 the negotiated pair is `(44, 0)`. -/
theorem init_surface_fallback_first_witness :
    (init_surface_ sample_host_no_match sample_state_with_device 37).raised = none ∧
    (init_surface_ sample_host_no_match sample_state_with_device 37).state.surface_format_ =
      { format := 44, colorSpace := 0 } :=
  init_surface_fallback_first sample_host_no_match sample_state_with_device 37
    { format := 44, colorSpace := 0 } [{ format := 50, colorSpace := 0 }]
    (by decide) (by decide) (by decide) (by decide) (by decide)

/-! ## Initialization -/

/-- C3. If some requested layer (a name of `req_inst_layers_`, or the
validation layer that `init_base` adds when validation is enabled) is not
available on the host, `init_base` throws the runtime error "missing instance
layer support", and it does so before any Context is created: the only calls
made are the enumeration of the layers and the written line, and the instance,
debug-report, device and surface members are as before.  This holds for both
values of `enable_validation_` and every requested format. -/
theorem init_base_missing_layer (h : Host) (s : Program_base) (format : Format)
    (hmissing : ∃ l ∈ s.req_inst_layers_ ++
        (if s.enable_validation_ then ["VK_LAYER_LUNARG_standard_validation"] else []),
      ∀ a ∈ h.available_layers, a.layerName ≠ l) :
    (init_base h s format).raised =
      some (Err.runtime_error (MSG_PREFIX ++ "missing instance layer support")) ∧
    (∀ e ∈ (init_base h s format).trace,
      e = Event.vkEnumerateInstanceLayerProperties ∨ ∃ text, e = Event.cout text) ∧
    (init_base h s format).state.instance_ = s.instance_ ∧
    (init_base h s format).state.debug_report_ = s.debug_report_ ∧
    (init_base h s format).state.p_phy_dev_ = s.p_phy_dev_ ∧
    (init_base h s format).state.p_dev_ = s.p_dev_ ∧
    (init_base h s format).state.surface_ = s.surface_ := by
  obtain ⟨-, hq2, -, -, hq5, hq6, hq7, hq8, hq9⟩ := requests_fields s
  have hc : (check_instance_layer_support_ h (init_base.requests s)).1 = false := by
    rw [← Bool.not_eq_true]
    intro htrue
    have hall := (loop_fst_eq_true_iff h.available_layers
      (init_base.requests s).req_inst_layers_).mp htrue
    rw [hq2] at hall
    obtain ⟨l, hl, habs⟩ := hmissing
    obtain ⟨a, ha, hname⟩ := hall l hl
    exact habs a ha hname
  obtain ⟨pre, m, post, hreq, hpre, hm⟩ :=
    loop_false_split h.available_layers (init_base.requests s).req_inst_layers_ hc
  have hl := loop_first_missing h.available_layers pre m post hpre hm
  have htr : (check_instance_layer_support_ h (init_base.requests s)).2 =
      [Event.vkEnumerateInstanceLayerProperties, Event.vkEnumerateInstanceLayerProperties,
       Event.cout (MSG_PREFIX ++ m ++ " not supported")] := by
    simp [check_instance_layer_support_, hreq, hl]
  have hib : init_base h s format =
      { state := init_base.requests s,
        trace := (check_instance_layer_support_ h (init_base.requests s)).2,
        raised := some (Err.runtime_error (MSG_PREFIX ++ "missing instance layer support")) } := by
    simp [init_base, hc]
  rw [hib]
  refine ⟨rfl, ?_, hq7, hq9, hq6, hq5, hq8⟩
  intro e he
  rw [htr] at he
  simp only [List.mem_cons, List.mem_singleton, List.not_mem_nil, or_false] at he
  rcases he with he | he | he
  · exact Or.inl he
  · exact Or.inl he
  · exact Or.inr ⟨_, he⟩

/-- A use of `init_base_missing_layer`: validation is enabled on a host that
reports no layer, and `init_base` throws after the two enumeration calls and
the line naming the validation layer. -/
theorem init_base_missing_layer_witness :
    (init_base sample_host_no_layers (Program_base.construct true).state
      Format.eR8G8B8A8Unorm).raised =
      some (Err.runtime_error (MSG_PREFIX ++ "missing instance layer support")) ∧
    (init_base sample_host_no_layers (Program_base.construct true).state
      Format.eR8G8B8A8Unorm).trace =
      [Event.vkEnumerateInstanceLayerProperties, Event.vkEnumerateInstanceLayerProperties,
       Event.cout "-- PROGRAM_BASE: VK_LAYER_LUNARG_standard_validation not supported"] :=
  ⟨(init_base_missing_layer sample_host_no_layers (Program_base.construct true).state
      Format.eR8G8B8A8Unorm
      ⟨"VK_LAYER_LUNARG_standard_validation", by decide, by decide⟩).1,
   by decide⟩

/-! ## Diagnostic registration -/

/-- C4, as stated, fails: validation is enabled and initialization succeeds on a
host whose `vkGetInstanceProcAddr` finds the registration entry point but not
the unregistration entry point; the destructor then performs idle wait, device
release, surface destroy, window close and context destroy, and no
diagnostic-unregister, although diagnostics were enabled at construction. -/
theorem destructor_unregister_counterexample :
    (Program_base.construct true).state.enable_validation_ = true ∧
    (init_base sample_host_no_destroy (Program_base.construct true).state
      Format.eR8G8B8A8Unorm).raised = none ∧
    (Program_base.destructor sample_host_no_destroy
      (init_base sample_host_no_destroy (Program_base.construct true).state
        Format.eR8G8B8A8Unorm).state).trace =
      [Event.waitIdle, Event.delete_Device, Event.delete_Physical_device,
       Event.destroySurfaceKHR, Event.destroy_window,
       Event.vkGetInstanceProcAddr "vkDestroyDebugReportCallbackEXT",
       Event.instance_destroy] ∧
    Event.vkDestroyDebugReportCallbackEXT ∉
      (Program_base.destructor sample_host_no_destroy
        (init_base sample_host_no_destroy (Program_base.construct true).state
          Format.eR8G8B8A8Unorm).state).trace := by
  decide

/-- C4, amended. For any successful initialization and for both values of
`enable_validation_`, the destructor returns and the calls it makes are
exactly: device-idle wait, release of the logical device, release of the
physical device, surface destroy, window close, then, if and only if
validation was enabled at construction, the lookup of the unregistration entry
point followed by the diagnostic unregister if and only if the lookup found
it, then context destroy; in that order, none skipped, repeated or
reordered. -/
theorem destructor_sequence (h : Host) (teardown_host : Host) (s : Program_base)
    (format : Format) (hok : (init_base h s format).raised = none) :
    (Program_base.destructor teardown_host (init_base h s format).state).raised = none ∧
    (Program_base.destructor teardown_host (init_base h s format).state).trace =
      [Event.waitIdle, Event.delete_Device, Event.delete_Physical_device,
       Event.destroySurfaceKHR, Event.destroy_window] ++
      (if s.enable_validation_ then
        Event.vkGetInstanceProcAddr "vkDestroyDebugReportCallbackEXT" ::
          (if "vkDestroyDebugReportCallbackEXT" ∈ teardown_host.instance_procs then
            [Event.vkDestroyDebugReportCallbackEXT]
           else [])
       else []) ++
      [Event.instance_destroy] := by
  obtain ⟨-, hdev, hen, -⟩ := init_base_success h s format hok
  have hd := destructor_of_device teardown_host (init_base h s format).state hdev
  rw [hen] at hd
  exact hd

/-- A use of `destructor_sequence`: validation enabled on a host that offers
both entry points; the unregister call is made between window close and
context destroy. -/
theorem destructor_sequence_witness :
    (init_base sample_host_full (Program_base.construct true).state
      Format.eR8G8B8A8Unorm).raised = none ∧
    (Program_base.destructor sample_host_full
      (init_base sample_host_full (Program_base.construct true).state
        Format.eR8G8B8A8Unorm).state).trace =
      [Event.waitIdle, Event.delete_Device, Event.delete_Physical_device,
       Event.destroySurfaceKHR, Event.destroy_window,
       Event.vkGetInstanceProcAddr "vkDestroyDebugReportCallbackEXT",
       Event.vkDestroyDebugReportCallbackEXT,
       Event.instance_destroy] :=
  ⟨by decide,
   (destructor_sequence sample_host_full sample_host_full (Program_base.construct true).state
      Format.eR8G8B8A8Unorm (by decide)).2⟩

/-- C9, as stated, fails: with validation disabled, `init_base` creates
Context, physical device, logical device, window, Surface in that order, and
the destructor destroys logical device, physical device, Surface, window,
Context, which is not the reverse of the creation order (the reverse destroys
Surface and window before the devices). -/
theorem teardown_reverse_counterexample :
    (init_base sample_host_full (Program_base.construct false).state
      Format.eR8G8B8A8Unorm).raised = none ∧
    (init_base sample_host_full (Program_base.construct false).state
      Format.eR8G8B8A8Unorm).trace.filterMap Event.creates =
      [Resource.Context, Resource.PhysicalDevice, Resource.LogicalDevice, Resource.Window,
       Resource.Surface] ∧
    (Program_base.destructor sample_host_full
      (init_base sample_host_full (Program_base.construct false).state
        Format.eR8G8B8A8Unorm).state).trace.filterMap Event.destroys =
      [Resource.LogicalDevice, Resource.PhysicalDevice, Resource.Surface, Resource.Window,
       Resource.Context] ∧
    (Program_base.destructor sample_host_full
      (init_base sample_host_full (Program_base.construct false).state
        Format.eR8G8B8A8Unorm).state).trace.filterMap Event.destroys ≠
      ((init_base sample_host_full (Program_base.construct false).state
        Format.eR8G8B8A8Unorm).trace.filterMap Event.creates).reverse := by
  decide

/-- C9, amended. For any successful initialization, `init_base` creates
Context, Diagnostic Channel (when validation is enabled), physical device,
logical device, window, Surface in that order, and the destructor first waits
for the device to be idle and then destroys logical device, physical device,
Surface, window, Diagnostic Channel (when validation is enabled and the
unregistration entry point is found), Context in that order: the Device Pair
is released first, and the other objects are then destroyed in the reverse of
their creation order. -/
theorem teardown_order (h : Host) (teardown_host : Host) (s : Program_base)
    (format : Format) (hok : (init_base h s format).raised = none) :
    (init_base h s format).trace.filterMap Event.creates =
      [Resource.Context] ++
      (if s.enable_validation_ then [Resource.DiagnosticChannel] else []) ++
      [Resource.PhysicalDevice, Resource.LogicalDevice, Resource.Window, Resource.Surface] ∧
    (Program_base.destructor teardown_host
      (init_base h s format).state).trace.filterMap Event.destroys =
      [Resource.LogicalDevice, Resource.PhysicalDevice, Resource.Surface, Resource.Window] ++
      (if s.enable_validation_ = true ∧
          "vkDestroyDebugReportCallbackEXT" ∈ teardown_host.instance_procs
        then [Resource.DiagnosticChannel] else []) ++
      [Resource.Context] ∧
    (∃ rest, (Program_base.destructor teardown_host (init_base h s format).state).trace =
      Event.waitIdle :: rest ∧ Event.waitIdle ∉ rest) ∧
    ((s.enable_validation_ = true →
        "vkDestroyDebugReportCallbackEXT" ∈ teardown_host.instance_procs) →
      (Program_base.destructor teardown_host
        (init_base h s format).state).trace.filterMap Event.destroys =
        [Resource.LogicalDevice, Resource.PhysicalDevice] ++
        (((init_base h s format).trace.filterMap Event.creates).reverse.filter
          (fun r => decide (r ≠ Resource.LogicalDevice ∧ r ≠ Resource.PhysicalDevice)))) := by
  obtain ⟨-, hdev, hen, htr⟩ := init_base_success h s format hok
  have hd := (destructor_of_device teardown_host (init_base h s format).state hdev).2
  rw [hen] at hd
  rw [hd, htr]
  by_cases he : s.enable_validation_ = true
  · by_cases hp : "vkDestroyDebugReportCallbackEXT" ∈ teardown_host.instance_procs
    · simp [he, hp, Event.creates, Event.destroys]
    · simp [he, hp, Event.creates, Event.destroys]
  · simp [he, Event.creates, Event.destroys]

/-- A use of `teardown_order`: validation enabled on a host that offers both
entry points. -/
theorem teardown_order_witness :
    (init_base sample_host_full (Program_base.construct true).state
      Format.eR8G8B8A8Unorm).trace.filterMap Event.creates =
      [Resource.Context, Resource.DiagnosticChannel, Resource.PhysicalDevice,
       Resource.LogicalDevice, Resource.Window, Resource.Surface] ∧
    (Program_base.destructor sample_host_full
      (init_base sample_host_full (Program_base.construct true).state
        Format.eR8G8B8A8Unorm).state).trace.filterMap Event.destroys =
      [Resource.LogicalDevice, Resource.PhysicalDevice, Resource.Surface, Resource.Window,
       Resource.DiagnosticChannel, Resource.Context] :=
  ⟨(teardown_order sample_host_full sample_host_full (Program_base.construct true).state
      Format.eR8G8B8A8Unorm (by decide)).1,
   (teardown_order sample_host_full sample_host_full (Program_base.construct true).state
      Format.eR8G8B8A8Unorm (by decide)).2.1⟩

/-! ## The frame loop -/

end base
